import Mathlib

/-
Verification of the classroom-backend relational model and request pipeline.

The data model below is a shallow embedding of src/src/db/schema.ts: each
pgTable becomes a row structure, the database is the tuple of its tables,
and the store-level insert/delete functions enforce exactly the constraints
the schema declares (primary keys, unique indexes, foreign keys with their
onDelete policies).  Timestamp columns (createdAt/updatedAt) are elided:
no property below concerns them.  Operations of the API layer that are not
part of the source tree (routes, middleware internals) are modelled from
the specification and marked as such in their doc comments.
-/

namespace ClassroomBackend

/-- Enum `role` from schema.ts line 23. -/
inductive Role
  | student
  | teacher
  | admin
deriving DecidableEq, Repr

/-- Enum `class_status` from schema.ts lines 25-29. -/
inductive ClassStatus
  | active
  | inactive
  | archived
deriving DecidableEq, Repr

/-- Row of table `user` (schema.ts lines 31-41). -/
structure UserRow where
  id : String
  name : String
  email : String
  emailVerified : Bool
  image : Option String
  role : Role
  imageCldPubId : Option String
deriving DecidableEq, Repr

/-- Row of table `session` (schema.ts lines 43-61); expiry as an abstract tick. -/
structure SessionRow where
  id : String
  userId : String
  token : String
  expiresAt : Nat
  ipAddress : Option String
  userAgent : Option String
deriving DecidableEq, Repr

/-- Row of table `account` (schema.ts lines 63-89). -/
structure AccountRow where
  id : String
  userId : String
  accountId : String
  providerId : String
  accessToken : Option String
  refreshToken : Option String
  accessTokenExpiresAt : Option Nat
  refreshTokenExpiresAt : Option Nat
  scope : Option String
  idToken : Option String
  password : Option String
deriving DecidableEq, Repr

/-- Row of table `verification` (schema.ts lines 91-104). -/
structure VerificationRow where
  id : String
  identifier : String
  value : String
  expiresAt : Nat
deriving DecidableEq, Repr

/-- Row of table `departments` (schema.ts lines 106-113). -/
structure DepartmentRow where
  id : Nat
  code : String
  name : String
  description : Option String
deriving DecidableEq, Repr

/-- Row of table `subjects` (schema.ts lines 115-127). -/
structure SubjectRow where
  id : Nat
  departmentId : Nat
  name : String
  code : String
  description : Option String
deriving DecidableEq, Repr

/-- Row of table `classes` (schema.ts lines 129-156).  The jsonb `schedules`
column is structurally opaque to this core; it is modelled as an ordered list
of opaque entries. -/
structure ClassRow where
  id : Nat
  subjectId : Nat
  teacherId : String
  inviteCode : String
  name : String
  bannerCldPubId : Option String
  bannerUrl : Option String
  capacity : Int
  description : Option String
  status : ClassStatus
  schedules : List String
deriving DecidableEq, Repr

/-- Row of table `enrollments` (schema.ts lines 158-180). -/
structure EnrollmentRow where
  id : Nat
  studentId : String
  classId : Nat
deriving DecidableEq, Repr

/-- The relational store: one list per table of schema.ts, in declaration order. -/
structure DB where
  users : List UserRow
  sessions : List SessionRow
  accounts : List AccountRow
  verifications : List VerificationRow
  departments : List DepartmentRow
  subjects : List SubjectRow
  classes : List ClassRow
  enrollments : List EnrollmentRow
deriving DecidableEq, Repr

def emptyDB : DB := ⟨[], [], [], [], [], [], [], []⟩

/-- Error taxonomy: store-level constraint violations plus the typed result
variants named by the specification (sections 4.2, 4.3, 7). -/
inductive StoreErr
  | duplicateKey
  | foreignKeyViolation
  | duplicateCode
  | unknownDepartment
  | hasDependentSubjects
  | unknownSubject
  | unknownTeacher
  | invalidCapacity
  | unknownClass
  | unknownStudent
  | alreadyEnrolled
  | capacityExceeded
  | teacherHasClasses
deriving DecidableEq, Repr

/-- Fresh surrogate id for `generatedAlwaysAsIdentity` columns: one more than
the largest id in use. -/
def nextId (ids : List Nat) : Nat := ids.foldr max 0 + 1

def nextDepartmentId (db : DB) : Nat := nextId (db.departments.map (fun d => d.id))

def nextSubjectId (db : DB) : Nat := nextId (db.subjects.map (fun s => s.id))

def nextClassId (db : DB) : Nat := nextId (db.classes.map (fun c => c.id))

def nextEnrollmentId (db : DB) : Nat := nextId (db.enrollments.map (fun e => e.id))

/-- State seen by the caller after a store operation: the new database on
success, the unchanged input database on error (operations are transactional,
so an error has zero side effects). -/
def stateAfter (r : Except StoreErr DB) (db : DB) : DB :=
  match r with
  | .ok db2 => db2
  | .error _ => db

/-- Store-level insert into `user`.  Constraints per schema.ts lines 31-41:
primary key on id only — the email column carries NO unique constraint — and
the role column defaults to student (line 37) when the insert supplies none. -/
def insertUserRow (db : DB) (id name email : String) (emailVerified : Bool)
    (image : Option String) (roleOpt : Option Role) (imageCldPubId : Option String) :
    Except StoreErr DB :=
  if db.users.any (fun u => u.id == id) then .error .duplicateKey
  else .ok { db with users :=
    db.users ++ [⟨id, name, email, emailVerified, image, roleOpt.getD Role.student, imageCldPubId⟩] }

/-- Store-level insert into `departments`: primary key on id, unique index on
code (schema.ts line 108). -/
def insertDepartmentRow (db : DB) (r : DepartmentRow) : Except StoreErr DB :=
  if db.departments.any (fun d => d.id == r.id) then .error .duplicateKey
  else if db.departments.any (fun d => d.code == r.code) then .error .duplicateKey
  else .ok { db with departments := db.departments ++ [r] }

/-- Store-level insert into `subjects`: primary key on id, unique index on code
(line 123), foreign key departmentId → departments.id (lines 118-120). -/
def insertSubjectRow (db : DB) (r : SubjectRow) : Except StoreErr DB :=
  if db.subjects.any (fun s => s.id == r.id) then .error .duplicateKey
  else if db.subjects.any (fun s => s.code == r.code) then .error .duplicateKey
  else if !(db.departments.any (fun d => d.id == r.departmentId)) then .error .foreignKeyViolation
  else .ok { db with subjects := db.subjects ++ [r] }

/-- Store-level insert into `classes`: primary key on id, unique index on
inviteCode (line 141), foreign keys subjectId → subjects.id (lines 134-136)
and teacherId → user.id (lines 137-139). -/
def insertClassRow (db : DB) (r : ClassRow) : Except StoreErr DB :=
  if db.classes.any (fun c => c.id == r.id) then .error .duplicateKey
  else if db.classes.any (fun c => c.inviteCode == r.inviteCode) then .error .duplicateKey
  else if !(db.subjects.any (fun s => s.id == r.subjectId)) then .error .foreignKeyViolation
  else if !(db.users.any (fun u => u.id == r.teacherId)) then .error .foreignKeyViolation
  else .ok { db with classes := db.classes ++ [r] }

/-- Store-level insert into `enrollments`.  Constraints per schema.ts lines
158-180: primary key on id, foreign keys studentId → user.id and
classId → classes.id.  The index named `enrollments_student_class_unique`
(lines 175-178) is declared with `index(...)`, not `uniqueIndex(...)`, so —
unlike the session-token and provider-account indexes — it imposes NO
uniqueness constraint on the (studentId, classId) pair, and this insert
accepts a duplicate pair. -/
def insertEnrollmentRow (db : DB) (r : EnrollmentRow) : Except StoreErr DB :=
  if db.enrollments.any (fun e => e.id == r.id) then .error .duplicateKey
  else if !(db.users.any (fun u => u.id == r.studentId)) then .error .foreignKeyViolation
  else if !(db.classes.any (fun c => c.id == r.classId)) then .error .foreignKeyViolation
  else .ok { db with enrollments := db.enrollments ++ [r] }

/-- Store-level DELETE on `departments`, applying the onDelete policy of the
one foreign key that references it: subjects.departmentId is declared
`onDelete: restrict` (schema.ts line 120), so the delete is rejected while
any subject references the department. -/
def deleteDepartmentRow (db : DB) (did : Nat) : Except StoreErr DB :=
  if db.subjects.any (fun s => s.departmentId == did) then .error .foreignKeyViolation
  else .ok { db with departments := db.departments.filter (fun d => !(d.id == did)) }

/-- Store-level DELETE on `subjects`, applying the onDelete policies of the
references into it and transitively out of the deleted rows:
classes.subjectId is `onDelete: cascade` (schema.ts line 136), and
enrollments.classId is `onDelete: cascade` (line 168), so deleting a subject
removes its classes and the enrollments of those classes in one atomic step.
No restrict reference points at subjects, so the delete always succeeds. -/
def deleteSubjectRow (db : DB) (sid : Nat) : Except StoreErr DB :=
  let deadClasses := db.classes.filter (fun c => c.subjectId == sid)
  .ok { db with
    subjects := db.subjects.filter (fun s => !(s.id == sid)),
    classes := db.classes.filter (fun c => !(c.subjectId == sid)),
    enrollments := db.enrollments.filter
      (fun e => !(deadClasses.any (fun c => c.id == e.classId))) }

/-- Store-level DELETE on `classes`: enrollments.classId is
`onDelete: cascade` (schema.ts line 168), so the enrollments of the class are
removed with it; nothing restricts a class delete. -/
def deleteClassRow (db : DB) (cid : Nat) : Except StoreErr DB :=
  .ok { db with
    classes := db.classes.filter (fun c => !(c.id == cid)),
    enrollments := db.enrollments.filter (fun e => !(e.classId == cid)) }

/-- Store-level DELETE on `user`, applying the onDelete policies of the
foreign keys that reference it as declared in schema.ts:
classes.teacherId is `onDelete: restrict` (line 139);
session.userId (line 49) and account.userId (line 69) declare NO onDelete
action, which is NO ACTION — a user delete is rejected while such rows
remain; enrollments.studentId is `onDelete: cascade` (line 165). -/
def deleteUserRow (db : DB) (uid : String) : Except StoreErr DB :=
  if db.classes.any (fun c => c.teacherId == uid) then .error .foreignKeyViolation
  else if db.sessions.any (fun s => s.userId == uid) then .error .foreignKeyViolation
  else if db.accounts.any (fun a => a.userId == uid) then .error .foreignKeyViolation
  else .ok { db with
    users := db.users.filter (fun u => !(u.id == uid)),
    enrollments := db.enrollments.filter (fun e => !(e.studentId == uid)) }

/-- Invite-code generator for createClass.  The source generates a globally
unique code by collision-retry; here the retry loop is realised as picking
the first unused candidate from a pool one larger than the table, which
always contains an unused code. -/
def freshInviteCode (cls : List ClassRow) : String :=
  let used := cls.map (fun c => c.inviteCode)
  let cands := (List.range (cls.length + 1)).map (fun n => "invite-" ++ toString n)
  (cands.filter (fun c => !(used.contains c))).headD "invite-0"

/-- Modelled from the spec: `createDepartment(code, name, description?)`
(section 4.2) — the route handler is not under src/.  It inserts through the
store; the unique index on departments.code (schema.ts line 108) raises the
violation, which the handler surfaces as DuplicateCode. -/
def createDepartment (db : DB) (code name : String) (descr : Option String) :
    Except StoreErr DB :=
  match insertDepartmentRow db ⟨nextDepartmentId db, code, name, descr⟩ with
  | .error _ => .error .duplicateCode
  | .ok db2 => .ok db2

/-- Modelled from the spec: `createSubject(departmentId, code, name,
description?)` (section 4.2) — the route handler is not under src/.  It fails
with UnknownDepartment when the department does not resolve, then inserts
through the store; the unique index on subjects.code (schema.ts line 123)
raises the violation surfaced as DuplicateCode. -/
def createSubject (db : DB) (departmentId : Nat) (code name : String)
    (descr : Option String) : Except StoreErr DB :=
  if !(db.departments.any (fun d => d.id == departmentId)) then .error .unknownDepartment
  else
    match insertSubjectRow db ⟨nextSubjectId db, departmentId, name, code, descr⟩ with
    | .error _ => .error .duplicateCode
    | .ok db2 => .ok db2

/-- Modelled from the spec: `deleteDepartment(id)` (section 4.2) — the route
handler is not under src/.  The restrict policy itself comes from schema.ts
(subjects.departmentId, onDelete restrict); the handler surfaces the
violation as HasDependentSubjects. -/
def deleteDepartment (db : DB) (did : Nat) : Except StoreErr DB :=
  match deleteDepartmentRow db did with
  | .error _ => .error .hasDependentSubjects
  | .ok db2 => .ok db2

/-- Modelled from the spec: `deleteSubject(id)` (section 4.2) — the route
handler is not under src/.  It always succeeds; the cascade to classes and
their enrollments is the store-level policy of schema.ts. -/
def deleteSubject (db : DB) (sid : Nat) : Except StoreErr DB :=
  deleteSubjectRow db sid

/-- Modelled from the spec: `createClass(subjectId, teacherId, name, capacity,
schedules, description?)` (section 4.3) — the route handler is not under src/.
Unknown references fail first; a supplied capacity must be a positive integer
(else InvalidCapacity); an absent capacity falls back to the schema default 50
(schema.ts line 145); the invite code is generated fresh; status defaults to
active (line 147). -/
def createClass (db : DB) (subjectId : Nat) (teacherId name : String)
    (capacityOpt : Option Int) (schedules : List String) (descr : Option String) :
    Except StoreErr DB :=
  if !(db.subjects.any (fun s => s.id == subjectId)) then .error .unknownSubject
  else if !(db.users.any (fun u => u.id == teacherId)) then .error .unknownTeacher
  else
    match capacityOpt with
    | some c =>
      if c ≤ 0 then .error .invalidCapacity
      else insertClassRow db ⟨nextClassId db, subjectId, teacherId,
        freshInviteCode db.classes, name, none, none, c, descr, ClassStatus.active, schedules⟩
    | none => insertClassRow db ⟨nextClassId db, subjectId, teacherId,
        freshInviteCode db.classes, name, none, none, 50, descr, ClassStatus.active, schedules⟩

/-- Modelled from the spec: `enroll(studentId, classId)` (section 4.3) — the
route handler is not under src/.  Per the spec, unknown references and the
capacity bound are checked here, while pair uniqueness is NOT a read-then-write
check in application logic: section 5 requires it to come from the store's own
unique-index mechanism, surfaced as AlreadyEnrolled.  The insert therefore goes
straight to the store, whose constraints are exactly those of schema.ts. -/
def enroll (db : DB) (studentId : String) (classId : Nat) : Except StoreErr DB :=
  match db.classes.find? (fun c => c.id == classId) with
  | none => .error .unknownClass
  | some cls =>
    if !(db.users.any (fun u => u.id == studentId)) then .error .unknownStudent
    else if cls.capacity ≤ Int.ofNat (db.enrollments.filter (fun e => e.classId == classId)).length then
      .error .capacityExceeded
    else insertEnrollmentRow db ⟨nextEnrollmentId db, studentId, classId⟩

/-- Modelled from the spec: `unenroll(studentId, classId)` (section 4.3) — an
idempotent delete of the matching enrollment row. -/
def unenroll (db : DB) (studentId : String) (classId : Nat) : Except StoreErr DB :=
  .ok { db with enrollments :=
    db.enrollments.filter (fun e => !(e.studentId == studentId && e.classId == classId)) }

/-- Modelled from the spec: `deleteUser(id)` (section 4.3) — not under src/.
Per the spec it first checks that no class names the user as teacher
(TeacherHasClasses, restrict), then on success removes the user's sessions
and accounts (the schema declares NO onDelete action on session.userId and
account.userId, so the handler must delete them itself) and finally deletes
the user row through the store, whose studentId cascade removes the user's
enrollments. -/
def deleteUser (db : DB) (uid : String) : Except StoreErr DB :=
  if db.classes.any (fun c => c.teacherId == uid) then .error .teacherHasClasses
  else
    deleteUserRow { db with
      sessions := db.sessions.filter (fun s => !(s.userId == uid)),
      accounts := db.accounts.filter (fun a => !(a.userId == uid)) } uid

/-- Stages of the express pipeline of src/unnamed/part_000 (the entrypoint
carrying the auth short-circuit; src/src/index.ts is the same chain without
the auth route). -/
inductive Stage
  | corsStage
  | authHandler
  | jsonBody
  | securityMw
  | subjectsRouter
deriving DecidableEq, Repr

/-- A request path as its list of segments: /api/auth/x ↦ ["api", "auth", "x"]. -/
abbrev ReqPath := List String

/-- Matcher of `app.all("/api/auth/*splat", toNodeHandler(auth))` (part_000
line 19): the wildcard requires at least one further segment after the
/api/auth prefix. -/
def isAuthPath (p : ReqPath) : Bool :=
  match p with
  | a :: b :: rest => a == "api" && b == "auth" && !rest.isEmpty
  | _ => false

/-- Matcher of the mount `app.use("/api/subjects", subjectsRouter)` (part_000
line 25): any path under the /api/subjects prefix. -/
def isSubjectsPath (p : ReqPath) : Bool :=
  match p with
  | a :: b :: _ => a == "api" && b == "subjects"
  | _ => false

/-- One element of the middleware chain: which stage it is, which paths it
accepts, and whether accepting a request ends the chain (a route handler
sends the response and does not call next). -/
structure Middleware where
  stage : Stage
  accepts : ReqPath → Bool
  terminal : Bool

/-- The ordered chain registered in part_000 lines 11-25: cors (pass-through,
every path), the auth route (terminal), express.json (pass-through),
securityMiddleware (pass-through), the subjects router mount (terminal). -/
def appChain : List Middleware :=
  [ ⟨Stage.corsStage, fun _ => true, false⟩,
    ⟨Stage.authHandler, isAuthPath, true⟩,
    ⟨Stage.jsonBody, fun _ => true, false⟩,
    ⟨Stage.securityMw, fun _ => true, false⟩,
    ⟨Stage.subjectsRouter, isSubjectsPath, true⟩ ]

/-- Express dispatch over a chain: run each accepting middleware in order
until a terminal one handles the request; return the stages executed. -/
def runChain : List Middleware → ReqPath → List Stage
  | [], _ => []
  | m :: rest, p =>
    if m.accepts p then
      if m.terminal then [m.stage] else m.stage :: runChain rest p
    else runChain rest p

/-- The stages a request with the given path passes through in part_000. -/
def runPipeline (p : ReqPath) : List Stage := runChain appChain p

/-- Demo teacher used by the concrete databases below. -/
def teacherRow : UserRow := ⟨"t1", "Tina", "tina@school.edu", true, none, Role.teacher, none⟩

/-- Demo student. -/
def studentRow : UserRow := ⟨"s1", "Sam", "sam@school.edu", true, none, Role.student, none⟩

/-- Demo department. -/
def mathDept : DepartmentRow := ⟨1, "MATH", "Mathematics", none⟩

/-- Demo subject in the demo department. -/
def algebraSubject : SubjectRow := ⟨1, 1, "Algebra", "ALG", none⟩

/-- Demo class of the demo subject, taught by the demo teacher, capacity 50. -/
def algebraClass : ClassRow :=
  ⟨1, 1, "t1", "INV1", "Algebra 101", none, none, 50, none, ClassStatus.active, []⟩

/-- Demo session of the demo student. -/
def samSession : SessionRow := ⟨"ses1", "s1", "tok1", 1000, none, none⟩

/-- Demo account of the demo student. -/
def samAccount : AccountRow :=
  ⟨"acc1", "s1", "sam-ext", "credential", none, none, none, none, none, none, some "hash"⟩

/-- Concrete store with a teacher, a student, a department, a subject and one
class — the base state for the concrete witnesses. -/
def demoDB : DB :=
  ⟨[teacherRow, studentRow], [samSession], [samAccount], [],
   [mathDept], [algebraSubject], [algebraClass], []⟩

/-- demoDB after one enrollment of the demo student in the demo class. -/
def demoDBEnrolled : DB := { demoDB with enrollments := [⟨1, "s1", 1⟩] }

/-- demoDB after enrolling the same student in the same class twice: the
store holds two rows with the identical (studentId, classId) pair. -/
def demoDBEnrolledTwice : DB :=
  { demoDB with enrollments := [⟨1, "s1", 1⟩, ⟨2, "s1", 1⟩] }

/-- First of two users sharing an email address. -/
def annRow : UserRow := ⟨"u1", "Ann", "shared@school.edu", true, none, Role.student, none⟩

/-- Second user with the same email as annRow but a different id. -/
def bobRow : UserRow := ⟨"u2", "Bob", "shared@school.edu", true, none, Role.student, none⟩

/-- Store holding only annRow. -/
def dupEmailDB1 : DB := { emptyDB with users := [annRow] }

/-- Store holding two distinct users with the same email. -/
def dupEmailDB2 : DB := { emptyDB with users := [annRow, bobRow] }

/-! Helper lemmas shared by the claim theorems. -/

/-- Filtering out every element satisfying p leaves a list on which any p is false. -/
theorem any_filter_not (l : List α) (p : α → Bool) :
    (l.filter (fun x => !(p x))).any p = false := by
  simp [List.any_eq_true, List.mem_filter]

/-- An insert into departments with an already-used code is rejected by the
unique index, whichever constraint fires first. -/
theorem insertDepartmentRow_code_collision (db : DB) (r : DepartmentRow)
    (h : db.departments.any (fun d => d.code == r.code) = true) :
    ∃ e, insertDepartmentRow db r = .error e := by
  unfold insertDepartmentRow
  split
  · exact ⟨_, rfl⟩
  · exact ⟨_, rfl⟩

/-- An insert into subjects with an already-used code is rejected by the
unique index, whichever constraint fires first. -/
theorem insertSubjectRow_code_collision (db : DB) (r : SubjectRow)
    (h : db.subjects.any (fun s => s.code == r.code) = true) :
    ∃ e, insertSubjectRow db r = .error e := by
  unfold insertSubjectRow
  split
  · exact ⟨_, rfl⟩
  · exact ⟨_, rfl⟩

/-- A successful class insert appends exactly the given row. -/
theorem insertClassRow_ok_classes (db : DB) (r : ClassRow) (db2 : DB)
    (h : insertClassRow db r = .ok db2) : db2.classes = db.classes ++ [r] := by
  unfold insertClassRow at h
  split at h
  · exact absurd h (by simp)
  · split at h
    · exact absurd h (by simp)
    · split at h
      · exact absurd h (by simp)
      · split at h
        · exact absurd h (by simp)
        · simp only [Except.ok.injEq] at h
          rw [← h]

/-- A subjects-prefixed path never matches the auth route. -/
theorem subjects_path_not_auth (p : ReqPath) (h : isSubjectsPath p = true) :
    isAuthPath p = false := by
  match p with
  | [] => rfl
  | [a] => rfl
  | a :: b :: rest =>
    simp [isSubjectsPath] at h
    have hb : (("subjects" : String) == "auth") = false := by decide
    simp [isAuthPath, h.1, h.2, hb]

/-! Claim theorems. -/

/-- C1: the claim asserts that (studentId, classId) uniqueness on enrollments
is enforced by a store-level unique index, so that enrolling the same pair
twice leaves one row and the second call fails with AlreadyEnrolled.  The
schema declares `enrollments_student_class_unique` with `index(...)` rather
than `uniqueIndex(...)` (schema.ts lines 175-178), so the store accepts the
duplicate: starting from a store with a student, a class and no enrollments,
both enroll calls succeed and the store ends up holding two enrollment rows
with the identical (studentId, classId) pair. -/
theorem enrollments_pair_index_not_unique :
    enroll demoDB "s1" 1 = .ok demoDBEnrolled ∧
    enroll demoDBEnrolled "s1" 1 = .ok demoDBEnrolledTwice ∧
    demoDBEnrolledTwice.enrollments.countP
      (fun e => e.studentId == "s1" && e.classId == 1) = 2 ∧
    enroll demoDBEnrolled "s1" 1 ≠ .error StoreErr.alreadyEnrolled :=
  ⟨rfl, rfl, by decide, by
    intro h
    have h2 : (Except.ok demoDBEnrolledTwice : Except StoreErr DB) =
        Except.error StoreErr.alreadyEnrolled := Eq.trans (by rfl) h
    exact Except.noConfusion h2⟩

/-- C3: deleting a department that still has subjects referencing it fails
with the Conflict HasDependentSubjects (the restrict policy of
subjects.departmentId, schema.ts line 120) and leaves the store unchanged. -/
theorem deleteDepartment_restricted_when_subjects_exist (db : DB) (did : Nat)
    (_hdep : db.departments.any (fun d => d.id == did) = true)
    (hsub : db.subjects.any (fun s => s.departmentId == did) = true) :
    deleteDepartment db did = .error StoreErr.hasDependentSubjects ∧
      stateAfter (deleteDepartment db did) db = db := by
  have hrow : deleteDepartmentRow db did = .error StoreErr.foreignKeyViolation := by
    unfold deleteDepartmentRow
    rw [hsub]
    rfl
  have h : deleteDepartment db did = .error StoreErr.hasDependentSubjects := by
    unfold deleteDepartment
    rw [hrow]
  exact ⟨h, by rw [h]; rfl⟩

/-- C3 witness: the demo department 1 is referenced by the demo subject, so
its delete is rejected and the demo store is unchanged. -/
theorem deleteDepartment_restricted_witness :
    deleteDepartment demoDB 1 = .error StoreErr.hasDependentSubjects ∧
      stateAfter (deleteDepartment demoDB 1) demoDB = demoDB :=
  deleteDepartment_restricted_when_subjects_exist demoDB 1 (by decide) (by decide)

/-- C5: deleting a teacher who still owns at least one class fails with the
Conflict TeacherHasClasses (restrict policy of classes.teacherId, schema.ts
line 139, checked first by deleteUser per spec section 4.3) and deletes
nothing: the store is unchanged. -/
theorem deleteUser_teacher_with_classes_rejected (db : DB) (u : UserRow)
    (_hmem : u ∈ db.users) (_hrole : u.role = Role.teacher)
    (hcls : db.classes.any (fun c => c.teacherId == u.id) = true) :
    deleteUser db u.id = .error StoreErr.teacherHasClasses ∧
      stateAfter (deleteUser db u.id) db = db := by
  have h : deleteUser db u.id = .error StoreErr.teacherHasClasses := by
    unfold deleteUser
    rw [hcls]
    rfl
  exact ⟨h, by rw [h]; rfl⟩

/-- C5 witness: the demo teacher owns the demo class, so deleting them is
rejected and the demo store is unchanged. -/
theorem deleteUser_teacher_rejected_witness :
    deleteUser demoDB teacherRow.id = .error StoreErr.teacherHasClasses ∧
      stateAfter (deleteUser demoDB teacherRow.id) demoDB = demoDB :=
  deleteUser_teacher_with_classes_rejected demoDB teacherRow (by decide) rfl (by decide)

/-- C7: department codes and subject codes are unique in their tables:
createDepartment with an existing code fails with DuplicateCode and changes
nothing, and createSubject with a resolving department but a colliding
subject code likewise fails with DuplicateCode and changes nothing. -/
theorem duplicate_codes_rejected (db : DB) (code name : String)
    (descr : Option String) (did : Nat) :
    (db.departments.any (fun d => d.code == code) = true →
       createDepartment db code name descr = .error StoreErr.duplicateCode ∧
       stateAfter (createDepartment db code name descr) db = db) ∧
    (db.departments.any (fun d => d.id == did) = true →
     db.subjects.any (fun s => s.code == code) = true →
       createSubject db did code name descr = .error StoreErr.duplicateCode ∧
       stateAfter (createSubject db did code name descr) db = db) := by
  constructor
  · intro h
    obtain ⟨e, he⟩ := insertDepartmentRow_code_collision db
      ⟨nextDepartmentId db, code, name, descr⟩ h
    have hmain : createDepartment db code name descr = .error StoreErr.duplicateCode := by
      unfold createDepartment
      rw [he]
    exact ⟨hmain, by rw [hmain]; rfl⟩
  · intro hdep hcode
    obtain ⟨e, he⟩ := insertSubjectRow_code_collision db
      ⟨nextSubjectId db, did, name, code, descr⟩ hcode
    have hmain : createSubject db did code name descr = .error StoreErr.duplicateCode := by
      unfold createSubject
      rw [hdep]
      simp only [Bool.not_true, Bool.false_eq_true, if_false]
      rw [he]
    exact ⟨hmain, by rw [hmain]; rfl⟩

/-- C7 witness: in the demo store, reusing the department code MATH and the
subject code ALG are both rejected with DuplicateCode, leaving the store
unchanged. -/
theorem duplicate_codes_rejected_witness :
    (createDepartment demoDB "MATH" "Other" none = .error StoreErr.duplicateCode ∧
       stateAfter (createDepartment demoDB "MATH" "Other" none) demoDB = demoDB) ∧
    (createSubject demoDB 1 "ALG" "Other" none = .error StoreErr.duplicateCode ∧
       stateAfter (createSubject demoDB 1 "ALG" "Other" none) demoDB = demoDB) :=
  ⟨(duplicate_codes_rejected demoDB "MATH" "Other" none 1).1 (by decide),
   (duplicate_codes_rejected demoDB "ALG" "Other" none 1).2 (by decide) (by decide)⟩

/-- C8: a request on an auth-prefixed path passes CORS and is then handed to
the identity service handler, never reaching JSON body parsing, the security
middleware, or the subjects router; every subjects request passes CORS, JSON
parsing and the security middleware, in that order, before reaching the
subjects router (pipeline of src/unnamed/part_000 lines 11-25). -/
theorem auth_short_circuit_and_pipeline_order (p : ReqPath) :
    (isAuthPath p = true →
       runPipeline p = [Stage.corsStage, Stage.authHandler] ∧
       Stage.jsonBody ∉ runPipeline p ∧
       Stage.securityMw ∉ runPipeline p ∧
       Stage.subjectsRouter ∉ runPipeline p) ∧
    (isSubjectsPath p = true →
       runPipeline p =
         [Stage.corsStage, Stage.jsonBody, Stage.securityMw, Stage.subjectsRouter]) := by
  constructor
  · intro h
    have hrun : runPipeline p = [Stage.corsStage, Stage.authHandler] := by
      simp [runPipeline, appChain, runChain, h]
    refine ⟨hrun, ?_, ?_, ?_⟩ <;> rw [hrun] <;> decide
  · intro h
    have hna := subjects_path_not_auth p h
    simp [runPipeline, appChain, runChain, h, hna]

/-- C8 witness: the concrete path /api/auth/signin short-circuits to the auth
handler after CORS, and the concrete path /api/subjects/3 traverses CORS,
JSON parsing and the security middleware before the subjects router. -/
theorem auth_short_circuit_witness :
    (runPipeline ["api", "auth", "signin"] = [Stage.corsStage, Stage.authHandler] ∧
       Stage.jsonBody ∉ runPipeline ["api", "auth", "signin"] ∧
       Stage.securityMw ∉ runPipeline ["api", "auth", "signin"] ∧
       Stage.subjectsRouter ∉ runPipeline ["api", "auth", "signin"]) ∧
    runPipeline ["api", "subjects", "3"] =
      [Stage.corsStage, Stage.jsonBody, Stage.securityMw, Stage.subjectsRouter] :=
  ⟨(auth_short_circuit_and_pipeline_order ["api", "auth", "signin"]).1 (by decide),
   (auth_short_circuit_and_pipeline_order ["api", "subjects", "3"]).2 (by decide)⟩

/-- C9: a user row created without an explicit role is stored with role
student (the column default of schema.ts line 37), hence is neither a teacher
nor an admin. -/
theorem created_user_defaults_to_student_role (db : DB) (id name email : String)
    (ev : Bool) (img pub : Option String)
    (hid : db.users.any (fun u => u.id == id) = false) :
    ∃ r, insertUserRow db id name email ev img none pub =
        .ok { db with users := db.users ++ [r] } ∧
      r.role = Role.student ∧ r.role ≠ Role.teacher ∧ r.role ≠ Role.admin := by
  refine ⟨⟨id, name, email, ev, img, Role.student, pub⟩, ?_, rfl,
    fun hc => Role.noConfusion hc, fun hc => Role.noConfusion hc⟩
  unfold insertUserRow
  rw [hid]
  rfl

/-- C9 witness: inserting a fresh user without a role into the demo store
yields a student row. -/
theorem created_user_defaults_witness :
    ∃ r, insertUserRow demoDB "u9" "Noa" "noa@school.edu" true none none none =
        .ok { demoDB with users := demoDB.users ++ [r] } ∧
      r.role = Role.student ∧ r.role ≠ Role.teacher ∧ r.role ≠ Role.admin :=
  created_user_defaults_to_student_role demoDB "u9" "Noa" "noa@school.edu" true
    none none (by decide)

/-- C10: the user table has no uniqueness constraint on email: inserting a
user whose email is already present succeeds whenever the id is fresh, and a
store holding two distinct user rows with the same email is reachable by two
inserts from the empty store. -/
theorem user_email_not_unique :
    (∀ (db : DB) (id name email : String) (ev : Bool) (img pub : Option String)
       (ro : Option Role),
       db.users.any (fun u => u.id == id) = false →
       db.users.any (fun u => u.email == email) = true →
       ∃ db2, insertUserRow db id name email ev img ro pub = .ok db2) ∧
    (insertUserRow emptyDB "u1" "Ann" "shared@school.edu" true none none none =
        .ok dupEmailDB1 ∧
     insertUserRow dupEmailDB1 "u2" "Bob" "shared@school.edu" true none none none =
        .ok dupEmailDB2 ∧
     annRow ∈ dupEmailDB2.users ∧ bobRow ∈ dupEmailDB2.users ∧
     annRow.id ≠ bobRow.id ∧ annRow.email = bobRow.email) := by
  constructor
  · intro db id name email ev img pub ro hid hemail
    have h : insertUserRow db id name email ev img ro pub = .ok { db with users :=
        db.users ++ [⟨id, name, email, ev, img, ro.getD Role.student, pub⟩] } := by
      unfold insertUserRow
      rw [hid]
      rfl
    exact ⟨_, h⟩
  · exact ⟨rfl, rfl, by decide, by decide, by decide, rfl⟩

/-- C10 witness: inserting a fresh user carrying an email already present in
the demo store succeeds. -/
theorem user_email_not_unique_witness :
    ∃ db2, insertUserRow demoDB "u8" "Tina2" "tina@school.edu" true none none none =
      .ok db2 :=
  user_email_not_unique.1 demoDB "u8" "Tina2" "tina@school.edu" true none none none
    (by decide) (by decide)

/-- C2: deleting a user who teaches no class succeeds, and afterwards no
session, account or enrollment of that user remains (and the user row itself
is gone).  The enrollment cascade is the store policy of schema.ts line 165;
the session/account removal is performed by deleteUser itself (spec section
4.3), since schema.ts declares no onDelete action on those foreign keys. -/
theorem deleteUser_cascades_dependents (db : DB) (u : UserRow)
    (_hmem : u ∈ db.users)
    (hteach : db.classes.any (fun c => c.teacherId == u.id) = false) :
    ∃ db2, deleteUser db u.id = .ok db2 ∧
      (∀ s ∈ db2.sessions, s.userId ≠ u.id) ∧
      (∀ a ∈ db2.accounts, a.userId ≠ u.id) ∧
      (∀ e ∈ db2.enrollments, e.studentId ≠ u.id) ∧
      (∀ v ∈ db2.users, v.id ≠ u.id) := by
  have hok : deleteUser db u.id = .ok { db with
      users := db.users.filter (fun v => !(v.id == u.id)),
      sessions := db.sessions.filter (fun s => !(s.userId == u.id)),
      accounts := db.accounts.filter (fun a => !(a.userId == u.id)),
      enrollments := db.enrollments.filter (fun e => !(e.studentId == u.id)) } := by
    unfold deleteUser deleteUserRow
    simp [hteach, any_filter_not]
  refine ⟨_, hok, ?_, ?_, ?_, ?_⟩ <;>
    intro x hx <;>
    simpa using (List.mem_filter.mp hx).2

/-- C2 witness: deleting the demo student (who teaches nothing but has a
session, an account and an enrollment) succeeds and leaves no dependent row. -/
theorem deleteUser_cascades_witness :
    ∃ db2, deleteUser demoDBEnrolled studentRow.id = .ok db2 ∧
      (∀ s ∈ db2.sessions, s.userId ≠ studentRow.id) ∧
      (∀ a ∈ db2.accounts, a.userId ≠ studentRow.id) ∧
      (∀ e ∈ db2.enrollments, e.studentId ≠ studentRow.id) ∧
      (∀ v ∈ db2.users, v.id ≠ studentRow.id) :=
  deleteUser_cascades_dependents demoDBEnrolled studentRow (by decide) (by decide)

/-- C4: deleting a subject always succeeds and atomically removes the subject,
every class of that subject and every enrollment of those classes, while
preserving every other row and leaving the remaining tables untouched
(cascade policies of schema.ts lines 136 and 168). -/
theorem deleteSubject_cascades_atomically (db : DB) (sid : Nat) :
    ∃ db2, deleteSubject db sid = .ok db2 ∧
      (∀ s ∈ db2.subjects, s.id ≠ sid) ∧
      (∀ c ∈ db2.classes, c.subjectId ≠ sid) ∧
      (∀ e ∈ db2.enrollments, ∀ c ∈ db.classes, c.subjectId = sid → e.classId ≠ c.id) ∧
      (∀ s ∈ db.subjects, s.id ≠ sid → s ∈ db2.subjects) ∧
      (∀ c ∈ db.classes, c.subjectId ≠ sid → c ∈ db2.classes) ∧
      (∀ e ∈ db.enrollments,
         (∀ c ∈ db.classes, c.subjectId = sid → e.classId ≠ c.id) → e ∈ db2.enrollments) ∧
      db2.users = db.users ∧ db2.departments = db.departments ∧
      db2.sessions = db.sessions ∧ db2.accounts = db.accounts := by
  have hok : deleteSubject db sid = .ok { db with
      subjects := db.subjects.filter (fun s => !(s.id == sid)),
      classes := db.classes.filter (fun c => !(c.subjectId == sid)),
      enrollments := db.enrollments.filter
        (fun e => !((db.classes.filter (fun c => c.subjectId == sid)).any
          (fun c => c.id == e.classId))) } := rfl
  refine ⟨_, hok, ?_, ?_, ?_, ?_, ?_, ?_, rfl, rfl, rfl, rfl⟩
  · intro s hs
    simpa using (List.mem_filter.mp hs).2
  · intro c hc
    simpa using (List.mem_filter.mp hc).2
  · intro e he c hc hcsid heq
    have h2 := (List.mem_filter.mp he).2
    rw [Bool.not_eq_true', List.any_eq_false] at h2
    have hcdead : c ∈ db.classes.filter (fun c => c.subjectId == sid) :=
      List.mem_filter.mpr ⟨hc, by simp [hcsid]⟩
    exact h2 c hcdead (by simp [heq])
  · intro s hs hne
    exact List.mem_filter.mpr ⟨hs, by simp [hne]⟩
  · intro c hc hne
    exact List.mem_filter.mpr ⟨hc, by simp [hne]⟩
  · intro e he hall
    refine List.mem_filter.mpr ⟨he, ?_⟩
    rw [Bool.not_eq_true', List.any_eq_false]
    intro c hcdead
    have hcm := List.mem_filter.mp hcdead
    have hne := hall c hcm.1 (by simpa using hcm.2)
    simp
    exact fun hcontra => hne hcontra.symm

/-- C4 witness: deleting the demo subject from the twice-enrolled demo store
removes the subject, its class and both enrollments, and touches nothing
else. -/
theorem deleteSubject_cascades_witness :
    ∃ db2, deleteSubject demoDBEnrolledTwice 1 = .ok db2 ∧
      (∀ s ∈ db2.subjects, s.id ≠ 1) ∧
      (∀ c ∈ db2.classes, c.subjectId ≠ 1) ∧
      (∀ e ∈ db2.enrollments, ∀ c ∈ demoDBEnrolledTwice.classes,
         c.subjectId = 1 → e.classId ≠ c.id) ∧
      (∀ s ∈ demoDBEnrolledTwice.subjects, s.id ≠ 1 → s ∈ db2.subjects) ∧
      (∀ c ∈ demoDBEnrolledTwice.classes, c.subjectId ≠ 1 → c ∈ db2.classes) ∧
      (∀ e ∈ demoDBEnrolledTwice.enrollments,
         (∀ c ∈ demoDBEnrolledTwice.classes, c.subjectId = 1 → e.classId ≠ c.id) →
           e ∈ db2.enrollments) ∧
      db2.users = demoDBEnrolledTwice.users ∧
      db2.departments = demoDBEnrolledTwice.departments ∧
      db2.sessions = demoDBEnrolledTwice.sessions ∧
      db2.accounts = demoDBEnrolledTwice.accounts :=
  deleteSubject_cascades_atomically demoDBEnrolledTwice 1

/-- C6: with resolving subject and teacher references, createClass with no
capacity creates the row with the schema default capacity 50 (schema.ts line
145); a supplied non-positive capacity is rejected with InvalidCapacity and
creates nothing; a supplied positive capacity is stored as given. -/
theorem createClass_capacity_default_and_validation (db : DB) (sid : Nat)
    (tid name : String) (scheds : List String) (descr : Option String)
    (hs : db.subjects.any (fun s => s.id == sid) = true)
    (ht : db.users.any (fun u => u.id == tid) = true) :
    (∀ db2, createClass db sid tid name none scheds descr = .ok db2 →
       ∃ r, db2.classes = db.classes ++ [r] ∧ r.capacity = 50) ∧
    (∀ c : Int, c ≤ 0 →
       createClass db sid tid name (some c) scheds descr = .error StoreErr.invalidCapacity ∧
       stateAfter (createClass db sid tid name (some c) scheds descr) db = db) ∧
    (∀ (c : Int) (db2 : DB), 0 < c →
       createClass db sid tid name (some c) scheds descr = .ok db2 →
       ∃ r, db2.classes = db.classes ++ [r] ∧ r.capacity = c) := by
  refine ⟨?_, ?_, ?_⟩
  · intro db2 h
    unfold createClass at h
    rw [hs, ht] at h
    simp only [Bool.not_true, Bool.false_eq_true, if_false] at h
    exact ⟨_, insertClassRow_ok_classes db _ db2 h, rfl⟩
  · intro c hc
    have hmain : createClass db sid tid name (some c) scheds descr =
        .error StoreErr.invalidCapacity := by
      unfold createClass
      rw [hs, ht]
      simp only [Bool.not_true, Bool.false_eq_true, if_false]
      rw [if_pos hc]
    exact ⟨hmain, by rw [hmain]; rfl⟩
  · intro c db2 hc h
    unfold createClass at h
    rw [hs, ht] at h
    simp only [Bool.not_true, Bool.false_eq_true, if_false] at h
    rw [if_neg (by omega)] at h
    exact ⟨_, insertClassRow_ok_classes db _ db2 h, rfl⟩

/-- C6 witness: in the demo store, creating a class with capacity 0 is
rejected with InvalidCapacity and leaves the store unchanged. -/
theorem createClass_capacity_witness :
    createClass demoDB 1 "t1" "Geometry" (some 0) [] none =
        .error StoreErr.invalidCapacity ∧
      stateAfter (createClass demoDB 1 "t1" "Geometry" (some 0) [] none) demoDB =
        demoDB :=
  (createClass_capacity_default_and_validation demoDB 1 "t1" "Geometry" [] none
    (by decide) (by decide)).2.1 0 (by decide)

end ClassroomBackend
